import Mathlib

/-!
Shallow embedding of the vision_care data-access layer:
client side `src/src/api/productApi.js` (endpoint resolver, request
executor/normalizer, local backup store, catalog client) and server side
`src/api/products.js` (schema-migrating CRUD handler).
-/

namespace VisionCare

/-! ## Client data model (src/src/api/productApi.js) -/

/-- A catalog product as the client-side data-access layer handles it: the
layer only ever inspects the `id` field; every other record field is opaque
to it and is modelled as a single opaque payload. -/
structure Product where
  id : Nat
  payload : String
  deriving DecidableEq, Repr

/-- A pre-seed sample record (`sampleProducts` entries before the `id`
override is applied). -/
structure BaseProduct where
  payload : String
  deriving DecidableEq, Repr

/-- Modelled from the spec: the bundled sample set is imported from
`src/utils/addSampleProducts`, a module outside the given sources; only its
role as a fixed list that gets sequential ids matters here, so a concrete
stand-in list is used. -/
def sampleBase : List BaseProduct :=
  [⟨"sample-a"⟩, ⟨"sample-b"⟩, ⟨"sample-c"⟩]

/-- Embedding of `sampleProducts.map((product, index) => ({...product, id: index + 1}))`
generalized to an arbitrary starting index `n`: the spread keeps the record
and overwrites `id` with the position-based value. -/
def seedIds (n : Nat) : List BaseProduct → List Product
  | [] => []
  | b :: bs => ⟨n, b.payload⟩ :: seedIds (n + 1) bs

/-- Raw text persisted in the `eyewear_products_backup` slot. Per the spec's
persisted-state contract (one named slot holding the full backup array as
JSON text), a parseable stored value decodes to a product list; `malformed`
is any stored text `JSON.parse` throws on. -/
inductive StoredText where
  | malformed
  | wellFormed (ps : List Product)
  deriving DecidableEq

/-- Outcome of `localStorage.getItem('eyewear_products_backup')`: the read
itself may throw (storage unavailable), find nothing (`null`, falsy), or
return stored text. -/
inductive StorageRead where
  | throws (msg : String)
  | empty
  | holds (t : StoredText)
  deriving DecidableEq

/-- The `localStorage.getItem` call inside `getStoredProducts`, as a
fallible operation. -/
def localStorageGetItem : StorageRead → Except String (Option StoredText)
  | .throws m => .error m
  | .empty => .ok none
  | .holds t => .ok (some t)

/-- The `JSON.parse(stored)` call: throws on malformed text, otherwise
yields the stored product list. -/
def jsonParseProducts : StoredText → Except String (List Product)
  | .malformed => .error "SyntaxError: unexpected token"
  | .wellFormed ps => .ok ps

/-- Body of the `try` block of `getStoredProducts` (productApi.js 115-123):
read the slot; if something is stored, parse it; otherwise return the
sample set with sequential ids from 1. -/
def getStoredProductsTry (st : StorageRead) : Except String (List Product) := do
  let stored ← localStorageGetItem st
  match stored with
  | some t => jsonParseProducts t
  | none => pure (seedIds 1 sampleBase)

/-- Embedding of `getStoredProducts` (productApi.js 114-131): the `catch`
turns any failure of the try block into the seeded sample set. -/
def getStoredProducts (st : StorageRead) : List Product :=
  match getStoredProductsTry st with
  | .ok ps => ps
  | .error _ => seedIds 1 sampleBase

/-- Embedding of `saveProductsBackup` (productApi.js 134-140): persist the
list; a persistence failure is swallowed, leaving the prior state. -/
def saveProductsBackup (saveFails : Bool) (ps : List Product)
    (st : StorageRead) : StorageRead :=
  if saveFails then st else .holds (.wellFormed ps)

/-! ## Response normalization (apiRequest, productApi.js 45-111) -/

/-- A JavaScript value as the response-normalization code sees it; `undefined`
models JavaScript `undefined` (in particular a missing object property). -/
inductive JVal where
  | undefined
  | null
  | bool (b : Bool)
  | num (n : Int)
  | str (s : String)
  | arr (xs : List JVal)
  | obj (fields : List (String × JVal))

/-- JavaScript truthiness. -/
def truthy : JVal → Bool
  | .undefined => false
  | .null => false
  | .bool b => b
  | .num n => n != 0
  | .str s => !s.isEmpty
  | .arr _ => true
  | .obj _ => true

/-- JavaScript property access `v[key]`: `undefined` when the property is
missing or the value is not an object. -/
def getProp (v : JVal) (key : String) : JVal :=
  match v with
  | .obj fields =>
    match fields.lookup key with
    | some w => w
    | none => .undefined
  | _ => .undefined

/-- The `Array.isArray` test. -/
def isArray : JVal → Bool
  | .arr _ => true
  | _ => false

/-- Embedding of the success-path envelope handling of `apiRequest`
(productApi.js 81-94): `data.success && data.products` → the products
value; `data.success && data.product` → the product value; a bare array →
itself; anything else → returned as-is. -/
def normalize (data : JVal) : JVal :=
  if truthy (getProp data "success") && truthy (getProp data "products") then
    getProp data "products"
  else if truthy (getProp data "success") && truthy (getProp data "product") then
    getProp data "product"
  else if isArray data then
    data
  else
    data

/-- Outcome of a `fetch` attempt as `apiRequest` distinguishes them: a
network-level rejection (no HTTP response), a non-ok HTTP response (with
the optional `error` field of its parsed body), or a parsed success body. -/
inductive FetchOutcome where
  | netError (msg : String)
  | httpError (status : Nat) (statusText : String) (errField : Option String)
  | ok (body : JVal)

/-- Embedding of `apiRequest` (productApi.js 45-111): fails immediately with
the no-API-URL message when the resolver chose local-only mode; maps a
non-ok response to its error-body message or the generic
`HTTP <status>: <statusText>` message; rethrows network errors; normalizes
success bodies. -/
def apiRequest (baseUrl : Option String) (outcome : FetchOutcome) :
    Except String JVal :=
  match baseUrl with
  | none => .error "No API URL configured - using localStorage"
  | some _ =>
    match outcome with
    | .netError m => .error m
    | .httpError status statusText errField =>
      .error (match errField with
              | some e => e
              | none => "HTTP " ++ toString status ++ ": " ++ statusText)
    | .ok body => .ok (normalize body)

/-! ## Endpoint resolver (getApiBaseUrl, productApi.js 4-40) -/

/-- Whether the first list begins with the second. -/
def leadsWith : List Char → List Char → Bool
  | _, [] => true
  | [], _ :: _ => false
  | a :: as, b :: bs => a == b && leadsWith as bs

/-- Whether the second list occurs contiguously inside the first. -/
def hasSub : List Char → List Char → Bool
  | [], needle => needle.isEmpty
  | a :: rest, needle => leadsWith (a :: rest) needle || hasSub rest needle

/-- The JavaScript `haystack.includes(needle)` substring test. -/
def jsIncludes (s sub : String) : Bool :=
  hasSub s.toList sub.toList

/-- Splitting a character list at every dot. -/
def splitOnDot : List Char → List (List Char)
  | [] => [[]]
  | c :: cs =>
    if c = '.' then [] :: splitOnDot cs
    else
      match splitOnDot cs with
      | [] => [[c]]
      | p :: ps => (c :: p) :: ps

/-- The `hostname.match(/^\d+\.\d+\.\d+\.\d+$/)` test: exactly four
nonempty runs of ASCII digits separated by dots. -/
def isIPv4Literal (s : String) : Bool :=
  match splitOnDot s.toList with
  | [a, b, c, d] =>
    !a.isEmpty && a.all Char.isDigit && !b.isEmpty && b.all Char.isDigit &&
    !c.isEmpty && c.all Char.isDigit && !d.isEmpty && d.all Char.isDigit
  | _ => false

/-- Embedding of `getApiBaseUrl` (productApi.js 4-40). `envUrl` is
`process.env.REACT_APP_PRODUCTS_API_URL` (a set-but-empty variable is falsy
in the guard), `hostname` is `window.location.hostname`; the result is the
resolved base address, `none` meaning local-only mode. -/
def getApiBaseUrl (envUrl : Option String) (hostname : String) :
    Option String :=
  let envSet := match envUrl with
                | some u => u != ""
                | none => false
  if envSet then
    envUrl
  else
    let isDeployedEnvironment :=
      !jsIncludes hostname "localhost" &&
      !jsIncludes hostname "127.0.0.1" &&
      !isIPv4Literal hostname
    if isDeployedEnvironment then
      none
    else if hostname != "localhost" && hostname != "127.0.0.1" then
      some ("http://" ++ hostname ++ ":5004/api")
    else
      some "http://localhost:5004/api"

/-- A loopback host in the spec's sense: the loopback name or the loopback
IPv4 literal. -/
def isLoopbackHostname (h : String) : Prop :=
  h = "localhost" ∨ h = "127.0.0.1"

instance (h : String) : Decidable (isLoopbackHostname h) := by
  unfold isLoopbackHostname; infer_instance

/-! ## Catalog client operations (productApi.js 142-289) -/

/-- Embedding of `productApi.getAllProducts` (productApi.js 168-194).
`remote` is the outcome of `apiRequest('/products')` as the client consumes
it (a product list, or any thrown error message — network, HTTP or
no-API-URL alike); the result pairs the returned value with the backup
slot's new state. Local-only mode reads the backup without touching
`remote`; a remote success is written through to the backup; a remote
failure falls back to the backup read. -/
def getAllProducts (baseUrl : Option String)
    (remote : Except String (List Product)) (saveFails : Bool)
    (st : StorageRead) : Except String (List Product) × StorageRead :=
  match baseUrl with
  | none => (.ok (getStoredProducts st), st)
  | some _ =>
    match remote with
    | .ok ps => (.ok ps, saveProductsBackup saveFails ps st)
    | .error _ => (.ok (getStoredProducts st), st)

/-- Leading run of ASCII digits of a character list. -/
def leadingDigits : List Char → List Char
  | [] => []
  | c :: cs => if c.isDigit then c :: leadingDigits cs else []

/-- Base-10 value of a digit list, accumulator style. -/
def digitsToNat (acc : Nat) : List Char → Nat
  | [] => acc
  | c :: cs => digitsToNat (acc * 10 + (c.toNat - 48)) cs

/-- The `parseInt(id)` call: base-10 value of the leading digit run,
`none` standing for `NaN` (which compares unequal to every id). -/
def jsParseInt (s : String) : Option Nat :=
  match leadingDigits s.toList with
  | [] => none
  | d :: ds => some (digitsToNat 0 (d :: ds))

/-- Embedding of `productApi.getProductById` (productApi.js 197-211): on a
remote failure, search the backup list for the first product whose `id`
equals `parseInt(id)`; when absent, throw the not-found message naming the
requested id. -/
def getProductById (remote : Except String Product) (st : StorageRead)
    (id : String) : Except String Product :=
  match remote with
  | .ok p => .ok p
  | .error _ =>
    match (getStoredProducts st).find? (fun p => jsParseInt id == some p.id) with
    | some p => .ok p
    | none => .error ("Product with ID " ++ id ++ " not found")

/-- Embedding of `productApi.createProduct` (productApi.js 214-234): a
remote failure is rethrown wrapped with the operation context and the
backup is untouched; on success the full list is re-fetched and saved, any
failure of that refresh being swallowed by the inner catch. -/
def createProduct (baseUrl : Option String)
    (remote : Except String Product)
    (refetch : Except String (List Product)) (saveFails : Bool)
    (st : StorageRead) : Except String Product × StorageRead :=
  match remote with
  | .error m => (.error ("Failed to create product: " ++ m), st)
  | .ok p =>
    let refetched := getAllProducts baseUrl refetch saveFails st
    match refetched.1 with
    | .ok ps => (.ok p, saveProductsBackup saveFails ps refetched.2)
    | .error _ => (.ok p, refetched.2)

/-- Embedding of `productApi.updateProduct` (productApi.js 237-257); same
shape as `createProduct` with its own wrapping message. -/
def updateProduct (baseUrl : Option String)
    (remote : Except String Product)
    (refetch : Except String (List Product)) (saveFails : Bool)
    (st : StorageRead) : Except String Product × StorageRead :=
  match remote with
  | .error m => (.error ("Failed to update product: " ++ m), st)
  | .ok p =>
    let refetched := getAllProducts baseUrl refetch saveFails st
    match refetched.1 with
    | .ok ps => (.ok p, saveProductsBackup saveFails ps refetched.2)
    | .error _ => (.ok p, refetched.2)

/-- Embedding of `productApi.deleteProduct` (productApi.js 260-279); same
shape as `createProduct` with its own wrapping message. -/
def deleteProduct (baseUrl : Option String)
    (remote : Except String Product)
    (refetch : Except String (List Product)) (saveFails : Bool)
    (st : StorageRead) : Except String Product × StorageRead :=
  match remote with
  | .error m => (.error ("Failed to delete product: " ++ m), st)
  | .ok p =>
    let refetched := getAllProducts baseUrl refetch saveFails st
    match refetched.1 with
    | .ok ps => (.ok p, saveProductsBackup saveFails ps refetched.2)
    | .error _ => (.ok p, refetched.2)

/-! ## Server data model (src/api/products.js) -/

/-- The column set of a `products` row as the handler reads and writes it:
every column the POST/PUT statements touch, each holding an optional opaque
SQL parameter value (`none` is absent/NULL; booleans and numbers are opaque
to the handler's logic). Identity and timestamps live on `Row`. -/
structure Fields where
  name : Option String := none
  price : Option String := none
  original_price : Option String := none
  category : Option String := none
  brand : Option String := none
  material : Option String := none
  shape : Option String := none
  color : Option String := none
  size : Option String := none
  image : Option String := none
  gallery : Option String := none
  description : Option String := none
  features : Option String := none
  specifications : Option String := none
  status : Option String := none
  framecolor : Option String := none
  style : Option String := none
  rim : Option String := none
  gender : Option String := none
  type : Option String := none
  featured : Option String := none
  bestseller : Option String := none
  sizes : Option String := none
  lenstypes : Option String := none
  discount : Option String := none
  colorimages : Option String := none
  deriving DecidableEq, Repr

/-- A `products` row: store-assigned integer key, the writable columns, and
the two store-set timestamps (modelled as abstract instants). -/
structure Row where
  id : Nat
  fields : Fields
  created_at : Nat
  updated_at : Nat
  deriving DecidableEq, Repr

/-- The parameterized statements the handler can issue against the
relational store, in the roles they play; `selectById` covers both the
GET-single read and the DELETE existence check, which are the same
statement text. -/
inductive Stmt where
  | createProducts
  | alterAdd (column : String)
  | createComments
  | selectById
  | selectSearch
  | selectByCategory
  | selectAll
  | insertRow
  | updateRow
  | deleteRow
  deriving DecidableEq, Repr

/-- Whether a statement belongs to the schema-ensure (migration) phase. -/
def isMigrationStmt : Stmt → Bool
  | .createProducts => true
  | .alterAdd _ => true
  | .createComments => true
  | _ => false

/-- Payload carried in a response's `data` field: a single row or a row
collection. -/
inductive RespData where
  | one (r : Row)
  | many (rs : List Row)
  deriving DecidableEq, Repr

/-- The uniform JSON envelope the handler responds with; `success` is
`none` for the empty OPTIONS body, and only the fields the handler's logic
sets are modelled (diagnostic-only fields such as `count` are omitted). -/
structure SResp where
  status : Nat
  success : Option Bool
  data : Option RespData := none
  error : Option String := none
  message : Option String := none
  deriving DecidableEq, Repr

/-- The query parameters the handler reads (`req.query`); a parameter the
request omits (or supplies empty, which every guard treats as absent or
non-matching) is `none`, and `id` is the store-comparable integer form. -/
structure Query where
  id : Option Nat := none
  search : Option String := none
  category : Option String := none
  deriving DecidableEq, Repr

/-! ## Schema migration (handleGet, products.js 55-114) -/

/-- The columns added by the `ALTER TABLE products ADD COLUMN IF NOT EXISTS`
sequence (products.js 92-102), in statement order. -/
def addedColumns : List String :=
  ["framecolor", "style", "rim", "gender", "type", "featured", "bestseller",
   "sizes", "lenstypes", "discount", "colorimages"]

/-- The body of the `try` block around the add-column statements, run over
a column list: statements execute in order and the first failing one throws,
carrying the statements executed so far (the failing one included) alongside
the error. `fails` says which add-column statements the store rejects. -/
def altersTry (fails : String → Bool) :
    List String → Except (String × List Stmt) (List Stmt)
  | [] => .ok []
  | c :: cs =>
    if fails c then
      .error ("could not add column " ++ c, [Stmt.alterAdd c])
    else
      match altersTry fails cs with
      | .ok t => .ok (Stmt.alterAdd c :: t)
      | .error (m, t) => .error (m, Stmt.alterAdd c :: t)

/-- The `try { ...ALTER TABLE... } catch (alterError) { console.log(...) }`
block (products.js 91-105): whatever the try block threw is logged, never
rethrown; the result is the executed statements plus the logged message. -/
def altersCaught (fails : String → Bool) : List Stmt × Option String :=
  match altersTry fails addedColumns with
  | .ok t => (t, none)
  | .error (m, t) => (t, some m)

/-- The statements a run of the add-column try block executed, throw or
no throw. -/
def traceOf (r : Except (String × List Stmt) (List Stmt)) : List Stmt :=
  match r with
  | .ok t => t
  | .error p => p.2

/-- The statements the migration phase of `handleGet` issues: create the
products table, run the guarded add-column block, create the comments
table (products.js 56-114). -/
def migrationTrace (fails : String → Bool) : List Stmt :=
  Stmt.createProducts :: (altersCaught fails).1 ++ [Stmt.createComments]

/-! ## GET dispatch (handleGet, products.js 116-176) -/

/-- Case-insensitive `ILIKE '%pat%'` match against a nullable column: a
NULL column never matches. -/
def ilikeContains (col : Option String) (pat : String) : Bool :=
  match col with
  | some v => hasSub v.toLower.toList pat.toLower.toList
  | none => false

/-- Insertion into a list kept in descending `created_at` order. -/
def insertByCreatedDesc (r : Row) : List Row → List Row
  | [] => [r]
  | x :: xs =>
    if r.created_at ≤ x.created_at then x :: insertByCreatedDesc r xs
    else r :: x :: xs

/-- The `ORDER BY created_at DESC` clause. -/
def orderByCreatedDesc : List Row → List Row
  | [] => []
  | r :: rs => insertByCreatedDesc r (orderByCreatedDesc rs)

/-- Which single data statement the GET branch chain executes for a given
query (products.js 119-169): by id, else search, else category, else all. -/
def queryStmt (q : Query) : Stmt :=
  match q.id with
  | some _ => Stmt.selectById
  | none =>
    match q.search with
    | some _ => Stmt.selectSearch
    | none =>
      match q.category with
      | some _ => Stmt.selectByCategory
      | none => Stmt.selectAll

/-- The response the GET branch chain builds from the table for a given
query (products.js 119-176); the branches mirror the source order. -/
def getResponse (q : Query) (tbl : List Row) : SResp :=
  match q.id with
  | some i =>
    match tbl.filter (fun r => r.id == i) with
    | [] => ⟨404, some false, none, some "Product not found", none⟩
    | r :: _ => ⟨200, some true, some (.one r), none, none⟩
  | none =>
    match q.search with
    | some s =>
      let result := orderByCreatedDesc (tbl.filter (fun r =>
        ilikeContains r.fields.name s || ilikeContains r.fields.category s ||
        ilikeContains r.fields.brand s))
      ⟨200, some true, some (.many result), none, none⟩
    | none =>
      match q.category with
      | some c =>
        let result := orderByCreatedDesc (tbl.filter (fun r =>
          ilikeContains r.fields.category c))
        ⟨200, some true, some (.many result), none, none⟩
      | none =>
        ⟨200, some true, some (.many (orderByCreatedDesc tbl)), none, none⟩

/-- Embedding of `handleGet` (products.js 53-181): run the migration phase
(alter failures caught inside it), then the one data statement the query
selects, and build the response from the table. GET never writes rows, so
only the response and the statement trace are produced. -/
def handleGet (fails : String → Bool) (q : Query) (tbl : List Row) :
    SResp × List Stmt :=
  (getResponse q tbl, migrationTrace fails ++ [queryStmt q])

/-! ## POST / PUT / DELETE (products.js 184-389) -/

/-- Embedding of `handlePost` (products.js 184-248): insert one row built
from the body, with the destructuring defaults for `status`, `featured`
and `bestseller` applied when the body omits them; the store assigns
`newId` and sets both timestamps to `now`. Returns response, new table and
statement trace. -/
def handlePost (body : Fields) (now newId : Nat) (tbl : List Row) :
    SResp × List Row × List Stmt :=
  let inserted : Fields :=
    { body with
      status := some (body.status.getD "active"),
      featured := some (body.featured.getD "false"),
      bestseller := some (body.bestseller.getD "false") }
  let newRow : Row := ⟨newId, inserted, now, now⟩
  (⟨201, some true, some (.one newRow), none,
    some "Product created successfully"⟩,
   tbl ++ [newRow], [Stmt.insertRow])

/-- Embedding of `handlePut` (products.js 251-333): one UPDATE statement
rewrites every listed column of every row matching the id from the body
(an absent query id, like SQL NULL, matches no row) and refreshes
`updated_at`; no returned row means 404, otherwise the first returned row
is reported. Returns response and new table (the trace is the single
UPDATE). `putUpdateRow` is the per-row effect of the SET clause under the
WHERE guard. -/
def putUpdateRow (id : Option Nat) (body : Fields) (now : Nat)
    (r : Row) : Row :=
  if some r.id == id then { r with fields := body, updated_at := now }
  else r

/-- Embedding of `handlePut` proper; see `putUpdateRow` above. -/
def handlePut (id : Option Nat) (body : Fields) (now : Nat)
    (tbl : List Row) : SResp × List Row :=
  match (tbl.map (putUpdateRow id body now)).filter
      (fun r => some r.id == id) with
  | [] =>
    (⟨404, some false, none, some "Product not found", none⟩,
     tbl.map (putUpdateRow id body now))
  | r :: _ =>
    (⟨200, some true, some (.one r), none,
      some "Product updated successfully"⟩,
     tbl.map (putUpdateRow id body now))

/-- Embedding of `handleDelete` (products.js 336-389): a missing (or empty,
hence falsy) id is rejected with 400 before any statement runs; otherwise
an existence check runs first, answering 404 on no match with the table
untouched, and only then the DELETE removes the matching rows and the first
deleted row's snapshot is returned. Returns response, new table and
statement trace. -/
def handleDelete (id : Option Nat) (tbl : List Row) :
    SResp × List Row × List Stmt :=
  match id with
  | none =>
    (⟨400, some false, none, some "Product ID is required", none⟩, tbl, [])
  | some i =>
    match tbl.filter (fun r => r.id == i) with
    | [] =>
      (⟨404, some false, none, some "Product not found",
        some "Product not found"⟩, tbl, [Stmt.selectById])
    | r :: _ =>
      (⟨200, some true, some (.one r), none,
        some "Product deleted successfully"⟩,
       tbl.filter (fun r => !(r.id == i)),
       [Stmt.selectById, Stmt.deleteRow])

/-- The HTTP verb of a request as the top-level switch sees it. -/
inductive Verb where
  | OPTIONS
  | GET
  | POST
  | PUT
  | DELETE
  | other (verb : String)
  deriving DecidableEq, Repr

/-- Embedding of the top-level `handler` (products.js 15-50): OPTIONS is
answered with an empty 200 body, the four data verbs dispatch to their
handlers, anything else is 405. `fails` models which add-column statements
the store rejects; `now` and `newId` are the store-chosen timestamp and
key for an insert. -/
def handler (verb : Verb) (fails : String → Bool) (q : Query)
    (body : Fields) (now newId : Nat) (tbl : List Row) :
    SResp × List Row × List Stmt :=
  match verb with
  | .OPTIONS => (⟨200, none, none, none, none⟩, tbl, [])
  | .GET =>
    let (resp, trace) := handleGet fails q tbl
    (resp, tbl, trace)
  | .POST => handlePost body now newId tbl
  | .PUT =>
    let (resp, newTbl) := handlePut q.id body now tbl
    (resp, newTbl, [Stmt.updateRow])
  | .DELETE => handleDelete q.id tbl
  | .other _ =>
    (⟨405, some false, none, some "Method not allowed", none⟩, tbl, [])

/-! ## Derived notions used by the claims -/

/-- A statement trace ensures both tables up front: its initial segment of
migration statements already contains both CREATE TABLE IF NOT EXISTS
statements, so they run before any other statement reaches the store. -/
def EnsuresTablesFirst (t : List Stmt) : Prop :=
  Stmt.createProducts ∈ t.takeWhile isMigrationStmt
  ∧ Stmt.createComments ∈ t.takeWhile isMigrationStmt

instance (t : List Stmt) : Decidable (EnsuresTablesFirst t) := by
  unfold EnsuresTablesFirst; infer_instance

/-- The JSON body the companion handler's GET-all success path emits
(products.js 171-176): the row collection under `data`, with `success`,
`count` and `source` alongside. -/
def getAllEnvelope (rows : List JVal) : JVal :=
  .obj [("success", .bool true), ("data", .arr rows),
        ("count", .num rows.length), ("source", .str "neon")]

/-- A concrete product record as JSON, for evaluating the normalizer. -/
def sampleRowJson : JVal :=
  .obj [("id", .num 1), ("name", .str "Test"), ("price", .num 10)]

/-! ## Helper lemmas -/

/-- Seeding assigns position-based ids: the element at index `i` of a list
seeded from `n` carries id `n + i`. -/
theorem seedIds_get (l : List BaseProduct) :
    ∀ (n i : Nat) (h : i < (seedIds n l).length),
      ((seedIds n l).get ⟨i, h⟩).id = n + i := by
  induction l with
  | nil => intro n i h; simp [seedIds] at h
  | cons b bs ih =>
    intro n i h
    cases i with
    | zero => rfl
    | succ j =>
      have hj : j < (seedIds (n + 1) bs).length := by
        simpa [seedIds] using h
      have := ih (n + 1) j hj
      simpa [seedIds, Nat.add_assoc, Nat.add_comm 1 j] using this

/-- takeWhile walks past a block that wholly satisfies the predicate. -/
theorem takeWhile_append_of_all {α : Type} (p : α → Bool) (l1 l2 : List α)
    (h : ∀ a ∈ l1, p a = true) :
    (l1 ++ l2).takeWhile p = l1 ++ l2.takeWhile p := by
  induction l1 with
  | nil => simp
  | cons a as ih =>
    have ha : p a = true := h a (by simp)
    have has : ∀ x ∈ as, p x = true := fun x hx => h x (by simp [hx])
    simp [List.takeWhile_cons, ha, ih has]

/-- Mapping a function that fixes every member leaves a list unchanged. -/
theorem map_of_fixes {α : Type} (f : α → α) (l : List α)
    (h : ∀ a ∈ l, f a = a) : l.map f = l := by
  induction l with
  | nil => rfl
  | cons a as ih =>
    have := h a (by simp)
    simp [this, ih fun x hx => h x (by simp [hx])]

/-- The statements the guarded add-column block executes, whether or not
its try block throws, are exactly the columns up to and including the
first failing one. -/
theorem altersTry_trace (fails : String → Bool) (cs : List String) :
    traceOf (altersTry fails cs) =
      ((cs.takeWhile fun c => !fails c) ++
       (cs.dropWhile fun c => !fails c).take 1).map Stmt.alterAdd := by
  induction cs with
  | nil => rfl
  | cons c cs ih =>
    by_cases hc : fails c
    · simp [altersTry, traceOf, hc, List.takeWhile_cons, List.dropWhile_cons]
    · cases he : altersTry fails cs with
      | ok t =>
        rw [he] at ih
        simp only [traceOf] at ih
        simp [altersTry, traceOf, hc, he, List.takeWhile_cons,
          List.dropWhile_cons, ih, List.map_take]
      | error p =>
        obtain ⟨m, t⟩ := p
        rw [he] at ih
        simp only [traceOf] at ih
        simp [altersTry, traceOf, hc, he, List.takeWhile_cons,
          List.dropWhile_cons, ih, List.map_take]

/-- The executed-statement component of the guarded block is the trace of
its try block. -/
theorem altersCaught_fst (fails : String → Bool) :
    (altersCaught fails).1 = traceOf (altersTry fails addedColumns) := by
  unfold altersCaught
  cases altersTry fails addedColumns with
  | ok t => rfl
  | error p => obtain ⟨m, t⟩ := p; rfl

/-- Every statement the add-column block executes is an add-column
statement, hence a migration statement. -/
theorem alters_all_migration (fails : String → Bool) :
    ∀ s ∈ (altersCaught fails).1, isMigrationStmt s = true := by
  intro s hs
  rw [altersCaught_fst, altersTry_trace] at hs
  obtain ⟨c, _, rfl⟩ := List.mem_map.mp hs
  rfl

/-- The data statement a GET dispatches to is never a migration
statement. -/
theorem queryStmt_not_migration (q : Query) :
    isMigrationStmt (queryStmt q) = false := by
  obtain ⟨i, s, c⟩ := q
  cases i <;> cases s <;> cases c <;> rfl

/-! ## Claim C10 -/

/-- C10: the backup store's load is total at the public interface: a read
that throws, an empty slot, and a stored value JSON.parse rejects all
yield the bundled sample set instead of an error — indeed any failure of
the try block does — a parseable backup is returned as stored, and the
seeded sample's ids run sequentially from 1 by array position. -/
theorem c10_backup_load_total (st : StorageRead) :
    (∀ m, st = .throws m → getStoredProducts st = seedIds 1 sampleBase)
    ∧ (st = .empty → getStoredProducts st = seedIds 1 sampleBase)
    ∧ (st = .holds .malformed → getStoredProducts st = seedIds 1 sampleBase)
    ∧ (∀ e, getStoredProductsTry st = .error e →
        getStoredProducts st = seedIds 1 sampleBase)
    ∧ (∀ ps, st = .holds (.wellFormed ps) → getStoredProducts st = ps)
    ∧ (∀ (i : Nat) (h : i < (seedIds 1 sampleBase).length),
        ((seedIds 1 sampleBase).get ⟨i, h⟩).id = i + 1) := by
  refine ⟨?_, ?_, ?_, ?_, ?_, ?_⟩
  · rintro m rfl; rfl
  · rintro rfl; rfl
  · rintro rfl; rfl
  · intro e he
    unfold getStoredProducts
    rw [he]
  · rintro ps rfl; rfl
  · intro i h
    have := seedIds_get sampleBase 1 i h
    simpa [Nat.add_comm] using this

/-- Closed instance of C10: a malformed stored backup yields the seeded
sample set. -/
theorem c10_backup_load_total_witness :
    getStoredProducts (.holds .malformed) = seedIds 1 sampleBase := by
  have h := c10_backup_load_total (.holds .malformed)
  exact h.2.2.1 rfl

/-! ## Claim C9 -/

/-- C9: on a remote failure, read-one searches the backup list for a
product whose id equals the requested id compared as an integer
(`parseInt`), returns such a product when one is present, and fails with
the not-found message naming the requested id when none is. -/
theorem c9_read_one_fallback (m id : String) (st : StorageRead) :
    ((∀ p ∈ getStoredProducts st, jsParseInt id ≠ some p.id) →
      getProductById (.error m) st id =
        .error ("Product with ID " ++ id ++ " not found"))
    ∧ (∀ p0 ∈ getStoredProducts st, jsParseInt id = some p0.id →
      ∃ p, getProductById (.error m) st id = .ok p
        ∧ p ∈ getStoredProducts st ∧ jsParseInt id = some p.id) := by
  constructor
  · intro hnone
    have hfind : (getStoredProducts st).find?
        (fun p => jsParseInt id == some p.id) = none := by
      rw [List.find?_eq_none]
      intro x hx
      simpa using hnone x hx
    unfold getProductById
    rw [hfind]
  · intro p0 hp0 heq
    cases hfind : (getStoredProducts st).find?
        (fun p => jsParseInt id == some p.id) with
    | none =>
      rw [List.find?_eq_none] at hfind
      exact absurd heq (by simpa using hfind p0 hp0)
    | some p =>
      refine ⟨p, ?_, List.mem_of_find?_eq_some hfind, ?_⟩
      · unfold getProductById
        rw [hfind]
      · simpa using List.find?_some hfind

/-- Closed instance of C9: with an empty backup slot (so the seeded sample
with ids 1..3 is in force), requesting id 999 after a remote failure
produces the not-found error naming 999. -/
theorem c9_read_one_fallback_witness :
    getProductById (.error "net down") .empty "999" =
      .error "Product with ID 999 not found" := by
  have h := (c9_read_one_fallback "net down" "999" .empty).1
  exact h (by decide)

/-! ## Claim C3 -/

/-- C3: read-all is total: it always returns a product list, the list is
the backup load both in local-only mode and on any remote failure, and in
local-only mode the remote outcome is never consulted at all. -/
theorem c3_read_all_total (baseUrl : Option String)
    (remote : Except String (List Product)) (saveFails : Bool)
    (st : StorageRead) :
    (∃ ps, (getAllProducts baseUrl remote saveFails st).1 = .ok ps
      ∧ (baseUrl = none → ps = getStoredProducts st)
      ∧ (∀ m, remote = .error m → ps = getStoredProducts st))
    ∧ (∀ r1 r2 : Except String (List Product),
        getAllProducts none r1 saveFails st =
          getAllProducts none r2 saveFails st) := by
  constructor
  · cases baseUrl with
    | none =>
      exact ⟨getStoredProducts st, rfl, fun _ => rfl, fun m _ => rfl⟩
    | some u =>
      cases remote with
      | ok ps =>
        exact ⟨ps, rfl, fun h => Option.noConfusion h,
          fun m hm => Except.noConfusion hm⟩
      | error e =>
        exact ⟨getStoredProducts st, rfl, fun _ => rfl, fun m _ => rfl⟩
  · intro r1 r2; rfl

/-- Closed instance of C3: in remote mode with the remote read failing and
an empty backup slot, read-all still succeeds, returning the backup
load. -/
theorem c3_read_all_total_witness :
    (getAllProducts (some "http://localhost:5004/api")
      (.error "Failed to fetch") false .empty).1 =
      .ok (getStoredProducts .empty) := by
  obtain ⟨⟨ps, h1, _, h3⟩, _⟩ :=
    c3_read_all_total (some "http://localhost:5004/api")
      (.error "Failed to fetch") false .empty
  rw [h3 "Failed to fetch" rfl] at h1
  exact h1

/-! ## Claim C6 -/

/-- C6: create, update and delete propagate every remote failure to the
caller wrapped with their operation context and leave the backup slot
untouched (no local-only mutation); the create wrapper's message contains
the literal substring "Failed to create product". -/
theorem c6_mutations_propagate (baseUrl : Option String)
    (refetch : Except String (List Product)) (saveFails : Bool)
    (st : StorageRead) (m : String) :
    ((createProduct baseUrl (.error m) refetch saveFails st).1 =
        .error ("Failed to create product: " ++ m)
      ∧ (createProduct baseUrl (.error m) refetch saveFails st).2 = st)
    ∧ ((updateProduct baseUrl (.error m) refetch saveFails st).1 =
        .error ("Failed to update product: " ++ m)
      ∧ (updateProduct baseUrl (.error m) refetch saveFails st).2 = st)
    ∧ ((deleteProduct baseUrl (.error m) refetch saveFails st).1 =
        .error ("Failed to delete product: " ++ m)
      ∧ (deleteProduct baseUrl (.error m) refetch saveFails st).2 = st)
    ∧ (∃ pre post, "Failed to create product: " ++ m =
        pre ++ "Failed to create product" ++ post) := by
  refine ⟨⟨rfl, rfl⟩, ⟨rfl, rfl⟩, ⟨rfl, rfl⟩, "", ": " ++ m, ?_⟩
  rw [← String.append_assoc]
  rfl

/-! ## Claim C4 -/

/-- C4 fails as stated: the claim's middle case — no override, a host that
is neither a loopback name nor a bare IPv4 literal resolves to local-only
mode — is false at the host `localhost.example.com`, a genuine deployable
DNS name: the resolver judges hosts by substring containment, so this host
escapes the deployed branch and resolves to remote mode at itself. -/
theorem c4_resolver_counterexample :
    ¬ (∀ h : String, ¬ isLoopbackHostname h → isIPv4Literal h = false →
        getApiBaseUrl none h = none) := by
  intro hclaim
  exact absurd
    (hclaim "localhost.example.com" (by decide) (by decide))
    (by decide)

/-- C4 amended: the resolver's decision order with the containment-based
classification the code actually performs: a nonempty override wins; with
no override, a host containing neither "localhost" nor "127.0.0.1" as a
substring and not a bare IPv4 literal is local-only; a host passing that
containment/IPv4 test but not exactly a loopback host resolves to remote
at itself on port 5004 path /api; exactly "localhost" or "127.0.0.1"
resolves to the fixed default address. -/
theorem c4_resolver_decision (envUrl : Option String) (h : String) :
    (∀ u, envUrl = some u → u ≠ "" → getApiBaseUrl envUrl h = some u)
    ∧ (envUrl = none → jsIncludes h "localhost" = false →
        jsIncludes h "127.0.0.1" = false → isIPv4Literal h = false →
        getApiBaseUrl envUrl h = none)
    ∧ (envUrl = none →
        (jsIncludes h "localhost" = true ∨ jsIncludes h "127.0.0.1" = true ∨
          isIPv4Literal h = true) →
        ¬ isLoopbackHostname h →
        getApiBaseUrl envUrl h = some ("http://" ++ h ++ ":5004/api"))
    ∧ (envUrl = none → isLoopbackHostname h →
        getApiBaseUrl envUrl h = some "http://localhost:5004/api") := by
  refine ⟨?_, ?_, ?_, ?_⟩
  · rintro u rfl hu
    simp [getApiBaseUrl, hu]
  · rintro rfl h1 h2 h3
    simp [getApiBaseUrl, h1, h2, h3]
  · rintro rfl hor hloop
    have hne1 : h ≠ "localhost" := fun hh => hloop (Or.inl hh)
    have hne2 : h ≠ "127.0.0.1" := fun hh => hloop (Or.inr hh)
    rcases hor with h1 | h1 | h1 <;>
      simp [getApiBaseUrl, h1, hne1, hne2]
  · rintro rfl hloop
    rcases hloop with rfl | rfl <;> decide

/-- Closed instance of the amended C4: a bare LAN IPv4 host with no
override resolves to remote mode at that host on port 5004 path /api. -/
theorem c4_resolver_decision_witness :
    getApiBaseUrl none "192.168.1.7" = some "http://192.168.1.7:5004/api" := by
  have h := (c4_resolver_decision none "192.168.1.7").2.2.1
  have hres := h rfl (Or.inr (Or.inr (by decide))) (by decide)
  simpa using hres

/-! ## Claim C5 -/

/-- C5 names a code bug: the normalizer checks only `data.products`,
`data.product` and bare arrays, while the companion handler's GET-all
success body is `{success:true, data:[...], count, source}` — that body
falls into the final branch and is returned whole, not unwrapped to its
products collection: evaluated at a one-row response, normalization
returns the envelope itself and not the row array. -/
theorem c5_envelope_not_unwrapped :
    normalize (getAllEnvelope [sampleRowJson]) = getAllEnvelope [sampleRowJson]
    ∧ normalize (getAllEnvelope [sampleRowJson]) ≠ .arr [sampleRowJson] := by
  constructor
  · rfl
  · intro hcontra
    have h1 : normalize (getAllEnvelope [sampleRowJson]) =
        getAllEnvelope [sampleRowJson] := rfl
    rw [h1] at hcontra
    exact JVal.noConfusion hcontra

/-! ## Claim C1 -/

/-- C1 fails as stated: the claim that every data verb ensures both tables
before any other statement is false at POST — its trace is the bare INSERT
with no ensure statement in front (the ensure phase lives only in the GET
handler). -/
theorem c1_ensure_counterexample :
    ¬ (∀ v : Verb, (v = .GET ∨ v = .POST ∨ v = .PUT ∨ v = .DELETE) →
        ∀ (fails : String → Bool) (q : Query) (body : Fields)
          (now newId : Nat) (tbl : List Row),
          EnsuresTablesFirst (handler v fails q body now newId tbl).2.2) := by
  intro hclaim
  exact absurd
    (hclaim .POST (Or.inr (Or.inl rfl)) (fun _ => false) {} {} 0 1 [])
    (by decide)

/-- C1 amended: only GET ensures the schema: every GET request issues both
CREATE TABLE IF NOT EXISTS statements before its data statement, while
POST, PUT and DELETE requests issue no migration statement at all. -/
theorem c1_only_get_ensures (fails : String → Bool) (q : Query)
    (body : Fields) (now newId : Nat) (tbl : List Row) :
    EnsuresTablesFirst (handler .GET fails q body now newId tbl).2.2
    ∧ (∀ v : Verb, (v = .POST ∨ v = .PUT ∨ v = .DELETE) →
        ∀ s ∈ (handler v fails q body now newId tbl).2.2,
          isMigrationStmt s = false) := by
  constructor
  · have htr : (handler .GET fails q body now newId tbl).2.2 =
        Stmt.createProducts ::
          ((altersCaught fails).1 ++ [Stmt.createComments, queryStmt q]) := by
      simp [handler, handleGet, migrationTrace]
    have hta : ((altersCaught fails).1 ++
          [Stmt.createComments, queryStmt q]).takeWhile isMigrationStmt =
        (altersCaught fails).1 ++
          [Stmt.createComments, queryStmt q].takeWhile isMigrationStmt :=
      takeWhile_append_of_all _ _ _ (alters_all_migration fails)
    have htb : [Stmt.createComments, queryStmt q].takeWhile isMigrationStmt =
        [Stmt.createComments] := by
      have hc : isMigrationStmt Stmt.createComments = true := rfl
      simp [List.takeWhile_cons, hc, queryStmt_not_migration q]
    rw [EnsuresTablesFirst, htr]
    simp [List.takeWhile_cons, isMigrationStmt, hta, htb]
  · intro v hv s hs
    rcases hv with rfl | rfl | rfl
    · simp [handler, handlePost] at hs
      rw [hs]; rfl
    · simp [handler] at hs
      rw [hs]; rfl
    · cases hq : q.id with
      | none => simp [handler, handleDelete, hq] at hs
      | some i =>
        cases hf : tbl.filter (fun r => r.id == i) with
        | nil =>
          simp [handler, handleDelete, hq, hf] at hs
          rw [hs]; rfl
        | cons r rs =>
          simp [handler, handleDelete, hq, hf] at hs
          rcases hs with rfl | rfl <;> rfl

/-- Closed instance of the amended C1: a GET on an empty store ensures
both tables up front, and a POST issues no migration statement. -/
theorem c1_only_get_ensures_witness :
    EnsuresTablesFirst (handler .GET (fun _ => false) {} {} 0 1 []).2.2
    ∧ ∀ s ∈ (handler .POST (fun _ => false) {} {} 0 1 []).2.2,
        isMigrationStmt s = false := by
  have h := c1_only_get_ensures (fun _ => false) {} {} 0 1 []
  exact ⟨h.1, h.2 .POST (Or.inl rfl)⟩

/-! ## Claim C2 -/

/-- C2 fails as stated: the add-column statements are not isolated from
each other: with only the first column's statement failing, the remaining
additions (for example `style`) are never executed in that run. -/
theorem c2_alters_counterexample :
    ¬ (∀ fails : String → Bool, ∀ c ∈ addedColumns,
        Stmt.alterAdd c ∈ (altersCaught fails).1) := by
  intro hclaim
  exact absurd
    (hclaim (fun c => c == "framecolor") "style" (by decide))
    (by decide)

/-- C2 amended: the add-column statements run inside one guarded block:
each run executes exactly the statements up to and including the first
failing one (in particular, with no failure all eleven run, and a failure
aborts the additions after it), and the failure is never propagated — the
GET response is computed the same way whatever the block's outcome. -/
theorem c2_alters_guarded_block (fails : String → Bool) (q : Query)
    (tbl : List Row) :
    (altersCaught fails).1 =
      ((addedColumns.takeWhile fun c => !fails c) ++
       (addedColumns.dropWhile fun c => !fails c).take 1).map Stmt.alterAdd
    ∧ (handleGet fails q tbl).1 = getResponse q tbl := by
  exact ⟨by rw [altersCaught_fst, altersTry_trace], rfl⟩

/-! ## Claim C7 -/

/-- C7: PUT is a full-row replace: when no row carries the requested id
the handler answers 404 with success false and the table is unchanged;
when a row does, the response reports success with the updated row — its
column set replaced wholesale by the request body (absent body fields
included), `updated_at` refreshed to the store clock, id and `created_at`
preserved — and every updated row in the new table carries exactly the
body's columns and the refreshed timestamp. -/
theorem c7_put_full_replace (i : Nat) (body : Fields) (now : Nat)
    (tbl : List Row) :
    ((∀ r ∈ tbl, r.id ≠ i) →
      handlePut (some i) body now tbl =
        (⟨404, some false, none, some "Product not found", none⟩, tbl))
    ∧ (∀ r0 ∈ tbl, r0.id = i →
      ∃ rOld, rOld ∈ tbl ∧ rOld.id = i ∧
        (handlePut (some i) body now tbl).1 =
          ⟨200, some true,
            some (.one ⟨rOld.id, body, rOld.created_at, now⟩), none,
            some "Product updated successfully"⟩)
    ∧ (∀ r ∈ (handlePut (some i) body now tbl).2, r.id = i →
        r.fields = body ∧ r.updated_at = now) := by
  refine ⟨?_, ?_, ?_⟩
  · intro hno
    have hmap : tbl.map (putUpdateRow (some i) body now) = tbl :=
      map_of_fixes _ _ (fun r hr => by simp [putUpdateRow, hno r hr])
    have hfilt : tbl.filter (fun r => some r.id == some i) = [] := by
      rw [List.filter_eq_nil_iff]
      intro a ha
      simpa using hno a ha
    simp only [handlePut]
    rw [hmap, hfilt]
  · intro r0 hr0 hid
    cases hfilt : (tbl.map (putUpdateRow (some i) body now)).filter
        (fun r => some r.id == some i) with
    | nil =>
      exfalso
      rw [List.filter_eq_nil_iff] at hfilt
      have hmem : putUpdateRow (some i) body now r0 ∈
          tbl.map (putUpdateRow (some i) body now) :=
        List.mem_map_of_mem _ hr0
      exact hfilt _ hmem (by simp [putUpdateRow, hid])
    | cons r rs =>
      have hrmem : r ∈ (tbl.map (putUpdateRow (some i) body now)).filter
          (fun r => some r.id == some i) := by
        rw [hfilt]; exact List.mem_cons_self r rs
      rw [List.mem_filter] at hrmem
      obtain ⟨hrmap, hrpred⟩ := hrmem
      obtain ⟨rOld, hrOld, hreq⟩ := List.mem_map.mp hrmap
      by_cases hOld : rOld.id = i
      · refine ⟨rOld, hrOld, hOld, ?_⟩
        simp only [handlePut, hfilt]
        rw [← hreq]
        simp [putUpdateRow, hOld]
      · exfalso
        have hrr : r = rOld := by rw [← hreq]; simp [putUpdateRow, hOld]
        rw [hrr] at hrpred
        exact hOld (by simpa using hrpred)
  · intro r hr hid2
    have h2 : (handlePut (some i) body now tbl).2 =
        tbl.map (putUpdateRow (some i) body now) := by
      unfold handlePut
      split <;> rfl
    rw [h2] at hr
    obtain ⟨rOld, hrOld, hreq⟩ := List.mem_map.mp hr
    by_cases hOld : rOld.id = i
    · rw [← hreq]
      constructor <;> simp [putUpdateRow, hOld]
    · exfalso
      have hrr : r = rOld := by rw [← hreq]; simp [putUpdateRow, hOld]
      rw [hrr] at hid2
      exact hOld hid2

/-- Closed instance of C7, the spec's scenario: PUT for id 7 against a
store with no such row answers 404 with success false. -/
theorem c7_put_full_replace_witness :
    handlePut (some 7) {} 0 [] =
      (⟨404, some false, none, some "Product not found", none⟩, []) := by
  have h := (c7_put_full_replace 7 {} 0 []).1
  exact h (by simp)

/-! ## Claim C8 -/

/-- C8: DELETE's guards: a missing id is rejected with 400 before any
statement runs and the table is untouched; a present id with no matching
row answers 404 after only the existence-check statement, the table again
untouched; a matching row yields success with the first matching row's
snapshot, the existence check runs before the DELETE, and the new table
holds exactly the rows whose id differs. -/
theorem c8_delete_guards (i : Nat) (tbl : List Row) :
    (handleDelete none tbl =
      (⟨400, some false, none, some "Product ID is required", none⟩,
       tbl, []))
    ∧ ((∀ r ∈ tbl, r.id ≠ i) →
      handleDelete (some i) tbl =
        (⟨404, some false, none, some "Product not found",
          some "Product not found"⟩, tbl, [Stmt.selectById]))
    ∧ (∀ r0 ∈ tbl, r0.id = i →
      ∃ rFst, (handleDelete (some i) tbl).1 =
          ⟨200, some true, some (.one rFst), none,
            some "Product deleted successfully"⟩
        ∧ rFst ∈ tbl ∧ rFst.id = i
        ∧ (handleDelete (some i) tbl).2.2 = [Stmt.selectById, Stmt.deleteRow]
        ∧ (∀ r, r ∈ (handleDelete (some i) tbl).2.1 ↔
            r ∈ tbl ∧ r.id ≠ i)) := by
  refine ⟨rfl, ?_, ?_⟩
  · intro hno
    have hfilt : tbl.filter (fun r => r.id == i) = [] := by
      rw [List.filter_eq_nil_iff]
      intro a ha
      simpa using hno a ha
    simp [handleDelete, hfilt]
  · intro r0 hr0 hid
    cases hfilt : tbl.filter (fun r => r.id == i) with
    | nil =>
      exfalso
      rw [List.filter_eq_nil_iff] at hfilt
      have hcontra := hfilt r0 hr0
      simp at hcontra
      exact hcontra hid
    | cons r rs =>
      have hrmem : r ∈ tbl.filter (fun r => r.id == i) := by
        rw [hfilt]; exact List.mem_cons_self r rs
      rw [List.mem_filter] at hrmem
      obtain ⟨hrtbl, hrpred⟩ := hrmem
      refine ⟨r, ?_, hrtbl, by simpa using hrpred, ?_, ?_⟩
      · simp only [handleDelete, hfilt]
      · simp only [handleDelete, hfilt]
      · intro r2
        simp only [handleDelete, hfilt]
        rw [List.mem_filter]
        constructor
        · rintro ⟨h1, h2⟩
          exact ⟨h1, by simpa using h2⟩
        · rintro ⟨h1, h2⟩
          exact ⟨h1, by simpa using h2⟩

/-- Closed instance of C8: deleting id 7 from an empty store answers 404
with the table untouched and no DELETE statement issued, and deleting with
no id answers 400 with no statement issued at all. -/
theorem c8_delete_guards_witness :
    handleDelete (some 7) ([] : List Row) =
      (⟨404, some false, none, some "Product not found",
        some "Product not found"⟩, [], [Stmt.selectById])
    ∧ handleDelete none ([] : List Row) =
      (⟨400, some false, none, some "Product ID is required", none⟩,
       [], []) := by
  have h := c8_delete_guards 7 ([] : List Row)
  exact ⟨h.2.1 (by simp), h.1⟩

end VisionCare
